import Mathlib

/-!
# gofr datasources: NATS health report, JetStream stream manager, Redis client

A shallow embedding of

* `pkg/gofr/datasource/pubsub/nats/health_test.go` (`mockConn`, `mockJetStream`,
  `testNATSClient.Health`),
* `pkg/gofr/datasource/pubsub/nats/stream_manager.go` (`StreamManager`),
* `pkg/gofr/datasource/redis/redis.go` (`getRedisConfig`, `NewClient`),

followed by the properties proved about them.

Conventions. A nil error is `none` and a nil pointer is `none`; dereferencing a
nil pointer is the panic `GoPanic.nilDereference`. The health report and the
Redis client only print their errors, which are terms of `GoError`. The stream
manager also matches errors with `errors.Is`, whose answer depends on methods
of library types that are not part of the repository: it is stated over an
arbitrary type of error values and an arbitrary `errors.Is` (`GoErrors`).
Calls to collaborators outside the repository (logger, JetStream, go-redis)
are recorded in explicit traces so that "was not invoked" can be stated.
-/

set_option autoImplicit false

/-! ## Go errors -/

/-- A Go error value. `sentinel id msg` is a package-level value made by
`errors.New(msg)`; `id` stands for its pointer identity. `wrap msg inner` is an
error whose text is `msg` and whose `Unwrap()` is `inner`, as made by
`fmt.Errorf` with the `%w` verb. -/
inductive GoError where
  | sentinel (id : Nat) (msg : String)
  | wrap (msg : String) (inner : GoError)
  deriving DecidableEq, Repr

namespace GoError

/-- The method `Error()`: the message text. -/
def Error : GoError → String
  | sentinel _ msg => msg
  | wrap msg _ => msg

end GoError

/-- A Go run-time panic. -/
inductive GoPanic where
  | nilDereference
  deriving DecidableEq, Repr

/-! ## `datasource.Health` -/

namespace datasource

/-- A value stored in `map[string]interface{}`: the health report stores
strings and booleans. -/
inductive Value where
  | str (s : String)
  | bool (b : Bool)
  deriving DecidableEq, Repr

/-- The Go type `map[string]interface{}`: a finite map read by key; an absent key
reads `none`. Insertion order is not observable. -/
abbrev Details := String → Option Value

/-- The result of `make(map[string]interface{})`. -/
def Details.empty : Details := fun _ => none

/-- The assignment `m[k] = v`. -/
def Details.set (m : Details) (k : String) (v : Value) : Details :=
  fun key => if key = k then some v else m key

/-- The map literal with the listed entries (the first entry of a key wins; the
literals used below have distinct keys). -/
def Details.ofList : List (String × Value) → Details
  | [] => Details.empty
  | (k, v) :: rest => fun key => if key = k then some v else Details.ofList rest key

/-- Modelled from the spec: the constant `datasource.StatusUp`, declared outside
the sources at hand; the spec names the two status values UP and DOWN. -/
def StatusUp : String := "UP"

/-- Modelled from the spec: the constant `datasource.StatusDown`, declared outside
the sources at hand; the spec names the two status values UP and DOWN. -/
def StatusDown : String := "DOWN"

/-- The struct `datasource.Health`. -/
structure Health where
  Status : String
  Details : Details

end datasource

/-! ## `health_test.go` -/

namespace nats

/-- The library type `nats.Status`, an `int`-typed enumeration. -/
structure Status where
  val : Int
  deriving DecidableEq, Repr

/-- The library constant `nats.DISCONNECTED`. -/
def DISCONNECTED : Status := ⟨0⟩
/-- The library constant `nats.CONNECTED`. -/
def CONNECTED : Status := ⟨1⟩
/-- The library constant `nats.CLOSED`. -/
def CLOSED : Status := ⟨2⟩
/-- The library constant `nats.RECONNECTING`. -/
def RECONNECTING : Status := ⟨3⟩
/-- The library constant `nats.CONNECTING`. -/
def CONNECTING : Status := ⟨4⟩
/-- The library constant `nats.DRAINING_SUBS`. -/
def DRAINING_SUBS : Status := ⟨5⟩
/-- The library constant `nats.DRAINING_PUBS`. -/
def DRAINING_PUBS : Status := ⟨6⟩

/-- The library method `nats.Status.String`. The results below are stated in
terms of this function and do not depend on its table. -/
def Status.String (s : Status) : String :=
  if s = DISCONNECTED then "DISCONNECTED"
  else if s = CONNECTED then "CONNECTED"
  else if s = CLOSED then "CLOSED"
  else if s = RECONNECTING then "RECONNECTING"
  else if s = CONNECTING then "CONNECTING"
  else if s = DRAINING_SUBS then "DRAINING_SUBS"
  else if s = DRAINING_PUBS then "DRAINING_PUBS"
  else "unknown status"

/-- The library error `nats.ErrConnectionClosed`. -/
def ErrConnectionClosed : GoError := .sentinel 1 "nats: connection closed"

/-- Modelled from the spec: the package constant `natsBackend`, declared outside
the sources at hand; the spec gives the backend identifier as "NATS". -/
def natsBackend : String := "NATS"

/-- Modelled from the spec: the package constant `jetstreamStatusOK`, declared
outside the sources at hand; the spec gives the fixed token as "OK". -/
def jetstreamStatusOK : String := "OK"

/-- The struct `mockConn`. -/
structure mockConn where
  status : Status
  deriving DecidableEq, Repr

/-- The method `(*mockConn).Status`: it reads `m.status`, so a nil receiver
panics. -/
def mockConn.Status : Option mockConn → Except GoPanic Status
  | none => .error .nilDereference
  | some m => .ok m.status

/-- The struct `mockJetStream`. -/
structure mockJetStream where
  accountInfoErr : Option GoError
  deriving DecidableEq, Repr

/-- The method `(*mockJetStream).AccountInfo`: the pair (account info present,
error). -/
def mockJetStream.AccountInfo (m : mockJetStream) : Bool × Option GoError :=
  match m.accountInfoErr with
  | some err => (false, some err)
  | none => (true, none)

/-- The struct `Config` of the package, reduced to the field the health report
reads. -/
structure Config where
  Server : String
  deriving DecidableEq, Repr

/-- The struct `testNATSClient`. The embedded `NatsClient` is declared outside
the sources at hand; the report reads only its `config`, which every
construction in the test file sets to a non-nil `*Config`. The two mocks are
pointers and may be nil. -/
structure testNATSClient where
  config : Config
  mockConn : Option mockConn
  mockJetStream : Option mockJetStream
  deriving DecidableEq, Repr

/-- What one run of `Health` yields: the returned value and the number of
`AccountInfo` calls made on the mock. -/
structure HealthRun where
  health : datasource.Health
  accountInfoCalls : Nat

/-- Lines 53 to 57 of `testNATSClient.Health`: the status starts as `StatusUp`
and becomes `StatusDown` when `c.mockConn != nil && c.mockConn.Status() !=
nats.CONNECTED`. -/
def testNATSClient.healthStatus (c : testNATSClient) : String :=
  match c.mockConn with
  | none => datasource.StatusUp
  | some m => if m.status ≠ CONNECTED then datasource.StatusDown else datasource.StatusUp

/-- Lines 64 to 71 of `testNATSClient.Health`: when `c.mockJetStream != nil`,
call `AccountInfo` and record `jetstream_status`. -/
def testNATSClient.probeJetStream (c : testNATSClient) (details : datasource.Details) :
    datasource.Details × Nat :=
  match c.mockJetStream with
  | none => (details, 0)
  | some js =>
    match (js.AccountInfo).2 with
    | some err => (details.set "jetstream_status" (.str ("Error: " ++ err.Error)), 1)
    | none => (details.set "jetstream_status" (.str jetstreamStatusOK), 1)

/-- The method `(*testNATSClient).Health`. -/
def testNATSClient.Health (c : testNATSClient) : Except GoPanic HealthRun := do
  let details := datasource.Details.empty
  let status := c.healthStatus
  let details := details.set "host" (.str c.config.Server)
  let details := details.set "backend" (.str natsBackend)
  let connStatus ← mockConn.Status c.mockConn
  let details := details.set "connection_status" (.str connStatus.String)
  let details := details.set "jetstream_enabled" (.bool c.mockJetStream.isSome)
  let (details, calls) := c.probeJetStream details
  return { health := { Status := status, Details := details }, accountInfoCalls := calls }

end nats

/-! ## Logging -/

/-- A log level of the logger interfaces. -/
inductive LogLevel where
  | debug
  | info
  | error
  deriving DecidableEq, Repr

/-- One call of `Debugf`, `Infof` or `Errorf`: the level, the format string and
the arguments as they print. -/
structure LogEntry where
  level : LogLevel
  format : String
  args : List String
  deriving DecidableEq, Repr

/-! ## `stream_manager.go` -/

/-- What the stream manager uses of Go errors, over a type `ε` of error values:
the method `Error()`, the function `errors.Is(err, target)` of the standard
library (equality with a link of the chain, the `Is(error) bool` method of a
link, `Unwrap() error` and `Unwrap() []error`, whatever the types at hand
define) and the library value `jetstream.ErrStreamNotFound`. Nothing is assumed
about them. -/
structure GoErrors (ε : Type) where
  Error : ε → String
  Is : ε → ε → Bool
  ErrStreamNotFound : ε

namespace jetstream

/-- The library struct `jetstream.StreamConfig`, reduced to the fields the manager
sets. -/
structure StreamConfig where
  Name : String
  Subjects : List String
  deriving DecidableEq, Repr

/-- A value of the library interface `jetstream.Stream`: a handle on a stream. -/
structure Stream where
  config : StreamConfig
  deriving DecidableEq, Repr

/-- The library interface `jetstream.JetStream`, reduced to the four methods the
manager calls. The server side is a state of type `σ` and the errors are of type
`ε`; each method maps a state to its Go results and the next state. A result
pair is (stream, error) as Go returns it, either of which may be nil. -/
structure JetStream (σ ε : Type) where
  CreateStream : StreamConfig → σ → (Option Stream × Option ε) × σ
  DeleteStream : String → σ → Option ε × σ
  CreateOrUpdateStream : StreamConfig → σ → (Option Stream × Option ε) × σ
  Stream : String → σ → (Option Stream × Option ε) × σ

end jetstream

namespace nats

/-- The struct `StreamConfig` of the package, declared outside the sources at
hand, reduced to the two fields `CreateStream` reads. -/
structure StreamConfig where
  Stream : String
  Subjects : List String
  deriving DecidableEq, Repr

/-- The struct `StreamManager`. The logger is the trace kept in `World`. -/
structure StreamManager (σ ε : Type) where
  js : jetstream.JetStream σ ε

/-- What the manager acts on: the JetStream server state and the lines logged so
far. -/
structure World (σ : Type) where
  server : σ
  log : List LogEntry

/-- The constructor `NewStreamManager`. -/
def NewStreamManager {σ ε : Type} (js : jetstream.JetStream σ ε) : StreamManager σ ε :=
  { js := js }

/-- The method `(*StreamManager).CreateStream`. -/
def StreamManager.CreateStream {σ ε : Type} (E : GoErrors ε) (sm : StreamManager σ ε)
    (cfg : StreamConfig) (w : World σ) : Option ε × World σ :=
  let log := w.log ++ [⟨.debug, "creating stream %s", [cfg.Stream]⟩]
  let jsCfg : jetstream.StreamConfig := { Name := cfg.Stream, Subjects := cfg.Subjects }
  let r := sm.js.CreateStream jsCfg w.server
  match r.1.2 with
  | some err =>
    (some err,
      { server := r.2, log := log ++ [⟨.error, "failed to create stream: %v", [E.Error err]⟩] })
  | none => (none, { server := r.2, log := log })

/-- The method `(*StreamManager).DeleteStream`. -/
def StreamManager.DeleteStream {σ ε : Type} (E : GoErrors ε) (sm : StreamManager σ ε)
    (name : String) (w : World σ) : Option ε × World σ :=
  let log := w.log ++ [⟨.debug, "deleting stream %s", [name]⟩]
  let r := sm.js.DeleteStream name w.server
  match r.1 with
  | some err =>
    if E.Is err E.ErrStreamNotFound then
      (none, { server := r.2,
               log := log ++ [⟨.debug, "stream %s not found, considering delete successful", [name]⟩] })
    else
      (some err, { server := r.2,
                   log := log ++ [⟨.error, "failed to delete stream %s: %v", [name, E.Error err]⟩] })
  | none =>
    (none, { server := r.2, log := log ++ [⟨.debug, "successfully deleted stream %s", [name]⟩] })

/-- The method `(*StreamManager).CreateOrUpdateStream`. -/
def StreamManager.CreateOrUpdateStream {σ ε : Type} (E : GoErrors ε) (sm : StreamManager σ ε)
    (cfg : jetstream.StreamConfig) (w : World σ) :
    (Option jetstream.Stream × Option ε) × World σ :=
  let log := w.log ++ [⟨.debug, "creating or updating stream %s", [cfg.Name]⟩]
  let r := sm.js.CreateOrUpdateStream cfg w.server
  match r.1.2 with
  | some err =>
    ((none, some err),
      { server := r.2,
        log := log ++ [⟨.error, "failed to create or update stream: %v", [E.Error err]⟩] })
  | none => ((r.1.1, none), { server := r.2, log := log })

/-- The method `(*StreamManager).GetStream`. -/
def StreamManager.GetStream {σ ε : Type} (E : GoErrors ε) (sm : StreamManager σ ε)
    (name : String) (w : World σ) : (Option jetstream.Stream × Option ε) × World σ :=
  let log := w.log ++ [⟨.debug, "getting stream %s", [name]⟩]
  let r := sm.js.Stream name w.server
  match r.1.2 with
  | some err =>
    if E.Is err E.ErrStreamNotFound then
      ((none, some err), { server := r.2, log := log ++ [⟨.debug, "stream %s not found", [name]⟩] })
    else
      ((none, some err),
        { server := r.2,
          log := log ++ [⟨.error, "failed to get stream %s: %v", [name, E.Error err]⟩] })
  | none => ((r.1.1, none), { server := r.2, log := log })

/-- Five error values on which to run the manager: `jetstream.ErrStreamNotFound`
itself, that value wrapped by `fmt.Errorf` with `%w`, an `*jetstream.APIError`
with error code 10059 as a server answers for a missing stream, an
`*jetstream.APIError` with error code 10058 (stream name in use), and
`nats.ErrConnectionClosed`. -/
inductive SampleError where
  | streamNotFound
  | wrappedStreamNotFound
  | apiStreamNotFound
  | apiStreamNameInUse
  | connectionClosed
  deriving DecidableEq, Repr

/-- The error code of the `*jetstream.APIError` found along the `Unwrap` chain of
a sample value, if there is one. -/
def SampleError.apiErrorCode : SampleError → Option Nat
  | .streamNotFound => some 10059
  | .wrappedStreamNotFound => some 10059
  | .apiStreamNotFound => some 10059
  | .apiStreamNameInUse => some 10058
  | .connectionClosed => none

/-- The answers of Go on the five sample values: their texts, and `errors.Is`,
which holds between equal values and between two values whose chains hold API
errors with the same error code (through `Unwrap` and the `Is` method of
`*jetstream.APIError`). In particular the wrapped value and the API error with
code 10059 both match `jetstream.ErrStreamNotFound`. -/
def sampleErrors : GoErrors SampleError where
  Error := fun e =>
    match e with
    | .streamNotFound => "nats: API error: code=404 err_code=10059 description=stream not found"
    | .wrappedStreamNotFound =>
      "delete orders: nats: API error: code=404 err_code=10059 description=stream not found"
    | .apiStreamNotFound => "nats: API error: code=404 err_code=10059 description=stream not found"
    | .apiStreamNameInUse =>
      "nats: API error: code=400 err_code=10058 description=stream name already in use"
    | .connectionClosed => "nats: connection closed"
  Is := fun e target =>
    decide (e = target) ||
      (e.apiErrorCode.isSome && decide (e.apiErrorCode = target.apiErrorCode))
  ErrStreamNotFound := .streamNotFound

/-- An in-memory JetStream server used to run the manager on concrete inputs: the
state is the list of existing stream names; creating a stream adds its name,
deleting a missing stream fails with the API error a server answers, fetching
one fails with `ErrStreamNotFound`. -/
def memJetStream : jetstream.JetStream (List String) SampleError where
  CreateStream := fun cfg names => ((some ⟨cfg⟩, none), cfg.Name :: names)
  DeleteStream := fun name names =>
    if name ∈ names then (none, names.filter (fun n => n ≠ name))
    else (some .apiStreamNotFound, names)
  CreateOrUpdateStream := fun cfg names => ((some ⟨cfg⟩, none), cfg.Name :: names)
  Stream := fun name names =>
    if name ∈ names then ((some ⟨⟨name, []⟩⟩, none), names)
    else ((none, some .streamNotFound), names)

/-- A JetStream whose every call fails with the given error and returns no
stream. -/
def failingJetStream {ε : Type} (e : ε) : jetstream.JetStream Unit ε where
  CreateStream := fun _ s => ((none, some e), s)
  DeleteStream := fun _ s => (some e, s)
  CreateOrUpdateStream := fun _ s => ((none, some e), s)
  Stream := fun _ s => ((none, some e), s)

end nats

/-! ## `strconv` and `fmt` -/

namespace strconv

/-- The two causes of a `*strconv.NumError`. -/
inductive NumErr where
  | ErrSyntax
  | ErrRange
  deriving DecidableEq, Repr

/-- The largest `uint64`. -/
def maxUint64 : Nat := 2 ^ 64 - 1

/-- The digit loop of `strconv.ParseUint(s, 10, 64)` with `n` the value read so
far: a byte that is not a decimal digit is a syntax error; a value that would
pass `maxUint64` is a range error, returned with `maxUint64`. -/
def parseUintLoop : List Char → Nat → Nat × Option NumErr
  | [], n => (n, none)
  | c :: cs, n =>
    if c.isDigit then
      if n ≥ maxUint64 / 10 + 1 then (maxUint64, some .ErrRange)
      else
        let n1 := n * 10 + (c.toNat - 48)
        if n1 > maxUint64 then (maxUint64, some .ErrRange)
        else parseUintLoop cs n1
    else (0, some .ErrSyntax)

/-- The function `strconv.ParseUint(s, 10, 64)`. -/
def ParseUint : List Char → Nat × Option NumErr
  | [] => (0, some .ErrSyntax)
  | s => parseUintLoop s 0

/-- The function `strconv.ParseInt(s, 10, 0)` with a 64-bit `int`: an optional
sign, then `ParseUint`; a syntax error returns 0, a magnitude outside the
`int64` range returns the nearest bound with a range error. -/
def ParseInt (s : List Char) : Int × Option NumErr :=
  match s with
  | [] => (0, some .ErrSyntax)
  | c :: cs =>
    let neg := decide (c = '-')
    let body := if c = '+' ∨ c = '-' then cs else s
    let r := ParseUint body
    if r.2 = some .ErrSyntax then (0, some .ErrSyntax)
    else if !neg && decide (r.1 ≥ 2 ^ 63) then (2 ^ 63 - 1, some .ErrRange)
    else if neg && decide (r.1 > 2 ^ 63) then (-(2 ^ 63), some .ErrRange)
    else (if neg then -(r.1 : Int) else (r.1 : Int), none)

/-- The function `strconv.Atoi`: the pair (value, error) of `ParseInt(s, 10, 0)`;
its fast path for short inputs returns the same pair up to the error's text. -/
def Atoi (s : String) : Int × Option NumErr := ParseInt s.toList

/-- The number a run of decimal digits denotes when read left to right after the
value `n`. -/
def digitsValue (cs : List Char) (n : Nat) : Nat :=
  cs.foldl (fun a c => a * 10 + (c.toNat - 48)) n

/-- A decimal integer, in the words of the property rather than of the parser:
an optional sign, then one or more decimal digits, denoting a number of the
64-bit `int` range; `none` for any other string (empty, a lone sign, a character
that is not a digit, a number out of range). -/
def decimalInt? (s : String) : Option Int :=
  match s.toList with
  | [] => none
  | c :: cs =>
    let body := if c = '+' ∨ c = '-' then cs else c :: cs
    if body ≠ [] ∧ body.all Char.isDigit = true then
      if c = '-' then
        if digitsValue body 0 ≤ 2 ^ 63 then some (-(digitsValue body 0 : Int)) else none
      else
        if digitsValue body 0 < 2 ^ 63 then some (digitsValue body 0 : Int) else none
    else none

end strconv

namespace fmt

/-- The verb `%d` on an `int`: the decimal digits, after a minus sign when
negative. -/
def d (n : Int) : String :=
  if n < 0 then "-" ++ Nat.repr n.natAbs else Nat.repr n.natAbs

end fmt

/-! ## `redis.go` -/

namespace config

/-- The interface `config.Config`, reduced to `Get`: a key reads as its value,
and as the empty string when it is not set. -/
structure Config where
  Get : String → String

end config

namespace goredis

/-- The library struct `redis.Options` of go-redis, reduced to the fields
`getRedisConfig` touches; `new(redis.Options)` is the value with every field
zero. -/
structure Options where
  Addr : String := ""
  Username : String := ""
  Password : String := ""
  DB : Int := 0
  deriving DecidableEq, Repr

/-- A value of the library type `*redis.Client` of go-redis: the client made from
the given options. -/
structure Client where
  options : Options
  deriving DecidableEq, Repr

end goredis

namespace redis

/-- The constant `defaultRedisPort`. -/
def defaultRedisPort : Int := 6379

/-- The struct `Config`. -/
structure Config where
  HostName : String
  Username : String
  Password : String
  Port : Int
  DB : Int
  Options : goredis.Options
  deriving DecidableEq, Repr

/-- The struct `Redis`; the logger is the trace of `NewClient`. -/
structure Redis where
  Client : goredis.Client
  config : Config
  deriving DecidableEq, Repr

/-- The function `getRedisConfig`. -/
def getRedisConfig (c : config.Config) : Config :=
  let hostName := c.Get "REDIS_HOST"
  let username := c.Get "REDIS_USER"
  let password := c.Get "REDIS_PASSWORD"
  let p := strconv.Atoi (c.Get "REDIS_PORT")
  let port := if p.2 ≠ none then defaultRedisPort else p.1
  let b := strconv.Atoi (c.Get "REDIS_DB")
  let db := if b.2 ≠ none then 0 else b.1
  let options : goredis.Options := {}
  let options := if options.Addr = "" then
    { options with Addr := hostName ++ ":" ++ fmt.d port } else options
  let options := if options.Username = "" then { options with Username := username } else options
  let options := if options.Password = "" then { options with Password := password } else options
  let options := { options with DB := db }
  { HostName := hostName, Username := username, Password := password, Port := port, DB := db,
    Options := options }

/-- What `NewClient` does to its collaborators, in order. -/
inductive Event where
  | log (entry : LogEntry)
  | newClient (options : goredis.Options)
  | addHook
  | ping
  | instrumentTracing
  deriving DecidableEq, Repr

/-- What the outside world answers to `NewClient`: the error of the initial ping
(nil when the server answers within `redisPingTimeout`) and the error of
`otel.InstrumentTracing`. -/
structure Env where
  pingErr : Option GoError
  tracingErr : Option GoError
  deriving DecidableEq, Repr

/-- The function `NewClient`: its single result (`none` is the nil `*Redis`) and
the trace of what it did. The signature has no error result. -/
def NewClient (c : config.Config) (env : Env) : Option Redis × List Event :=
  let redisConfig := getRedisConfig c
  if redisConfig.HostName = "" then (none, [])
  else
    let target := [redisConfig.HostName, fmt.d redisConfig.Port]
    let t := [Event.log ⟨.debug, "connecting to redis at '%s:%d' on database %d",
      target ++ [fmt.d redisConfig.DB]⟩]
    let rc : goredis.Client := { options := redisConfig.Options }
    let t := t ++ [.newClient redisConfig.Options, .addHook, .ping]
    let t := match env.pingErr with
      | none =>
        let t := t ++ [.instrumentTracing]
        let t := match env.tracingErr with
          | some err =>
            t ++ [.log ⟨.error, "could not add tracing instrumentation, error: %s", [err.Error]⟩]
          | none => t
        t ++ [.log ⟨.info, "connected to redis at %s:%d on database %d",
          target ++ [fmt.d redisConfig.DB]⟩]
      | some err =>
        t ++ [.log ⟨.error, "could not connect to redis at '%s:%d' , error: %s",
          target ++ [err.Error]⟩]
    (some { Client := rc, config := redisConfig }, t)

/-- A configuration given by a list of key and value pairs; a key not listed
reads as the empty string. -/
def mapConfig (kv : List (String × String)) : config.Config where
  Get := fun key => ((kv.find? (fun p => p.1 = key)).map (fun p => p.2)).getD ""

end redis

/-! ## Properties of `testNATSClient.Health` -/

namespace nats

open datasource

/-- With a connection mock present, `Health` returns and its result is given by
the status, the five assignments and the probe. -/
theorem Health_of_conn (server : String) (s : Status) (js : Option mockJetStream) :
    testNATSClient.Health ⟨⟨server⟩, some ⟨s⟩, js⟩ =
      .ok { health :=
              { Status := if s ≠ CONNECTED then StatusDown else StatusUp,
                Details := (testNATSClient.probeJetStream ⟨⟨server⟩, some ⟨s⟩, js⟩
                  ((((Details.empty.set "host" (.str server)).set "backend" (.str natsBackend)).set
                    "connection_status" (.str s.String)).set "jetstream_enabled"
                      (.bool js.isSome))).1 },
            accountInfoCalls := (testNATSClient.probeJetStream ⟨⟨server⟩, some ⟨s⟩, js⟩
                  ((((Details.empty.set "host" (.str server)).set "backend" (.str natsBackend)).set
                    "connection_status" (.str s.String)).set "jetstream_enabled"
                      (.bool js.isSome))).2 } := by
  rfl

/-- The two status tokens differ. -/
theorem StatusUp_ne_StatusDown : StatusUp ≠ StatusDown := by decide

/-- C1: for every host, every connection state `s` of a present connection mock
and every JetStream configuration (absent, probe succeeding, probe failing),
`Health` returns, its status is DOWN if and only if `s` is not CONNECTED and UP
otherwise, and that status is the same for every other JetStream configuration. -/
theorem Health_status_down_iff_not_connected (server : String) (s : Status)
    (js : Option mockJetStream) :
    ∃ r, testNATSClient.Health ⟨⟨server⟩, some ⟨s⟩, js⟩ = .ok r ∧
      (r.health.Status = StatusDown ↔ s ≠ CONNECTED) ∧
      (r.health.Status = StatusUp ↔ s = CONNECTED) ∧
      ∀ js2 : Option mockJetStream, ∃ r2,
        testNATSClient.Health ⟨⟨server⟩, some ⟨s⟩, js2⟩ = .ok r2 ∧
          r2.health.Status = r.health.Status := by
  refine ⟨_, Health_of_conn server s js, ?_, ?_, fun js2 => ⟨_, Health_of_conn server s js2, rfl⟩⟩
  · by_cases h : s = CONNECTED
    · simp [h, StatusUp_ne_StatusDown]
    · simp [h]
  · by_cases h : s = CONNECTED
    · simp [h]
    · simp [h, StatusUp_ne_StatusDown.symm]

/-- C1 (at the client of `TestNATSClient_HealthStatusDown`): a CLOSED connection
with no JetStream mock reports DOWN. -/
theorem Health_status_down_iff_not_connected_witness :
    ∃ r, testNATSClient.Health ⟨⟨"nats://localhost:4222"⟩, some ⟨CLOSED⟩, none⟩ = .ok r ∧
      r.health.Status = StatusDown := by
  obtain ⟨r, hr, hdown, -⟩ :=
    Health_status_down_iff_not_connected "nats://localhost:4222" CLOSED none
  exact ⟨r, hr, hdown.2 (by decide)⟩

/-- C2: for every host `h` and every probe outcome (nil, or an error `E`), with
the connection CONNECTED and the JetStream mock configured, `Health` returns
status UP and a details map with exactly the five keys host, backend,
connection_status, jetstream_enabled and jetstream_status, the last being the OK
token on success and "Error: " followed by the text of `E` on failure. -/
theorem Health_connected_with_jetstream (h : String) (probeErr : Option GoError) :
    ∃ r, testNATSClient.Health ⟨⟨h⟩, some ⟨CONNECTED⟩, some ⟨probeErr⟩⟩ = .ok r ∧
      r.health.Status = StatusUp ∧
      r.health.Details = Details.ofList
        [("host", .str h), ("backend", .str natsBackend),
         ("connection_status", .str CONNECTED.String),
         ("jetstream_enabled", .bool true),
         ("jetstream_status", .str (match probeErr with
            | none => jetstreamStatusOK
            | some E => "Error: " ++ E.Error))] := by
  refine ⟨_, Health_of_conn h CONNECTED (some ⟨probeErr⟩), by simp, ?_⟩
  funext key
  cases probeErr <;>
    simp only [testNATSClient.probeJetStream, mockJetStream.AccountInfo, Details.set,
      Details.ofList, Details.empty, Option.isSome] <;>
    split_ifs <;> simp_all

/-- C2 (at the client of `TestNATSClient_HealthJetStreamError`): a CONNECTED
connection whose probe fails with `ErrConnectionClosed` reports UP and stores
the error text after "Error: ". -/
theorem Health_connected_with_jetstream_witness :
    ∃ r, testNATSClient.Health
        ⟨⟨"nats://localhost:4222"⟩, some ⟨CONNECTED⟩, some ⟨some ErrConnectionClosed⟩⟩ = .ok r ∧
      r.health.Status = StatusUp ∧
      r.health.Details "jetstream_status" = some (.str "Error: nats: connection closed") ∧
      r.health.Details "jetstream_enabled" = some (.bool true) ∧
      r.health.Details "connection_status" = some (.str "CONNECTED") ∧
      r.health.Details "uptime" = none := by
  obtain ⟨r, hr, hup, hd⟩ :=
    Health_connected_with_jetstream "nats://localhost:4222" (some ErrConnectionClosed)
  refine ⟨r, hr, hup, ?_, ?_, ?_, ?_⟩ <;> rw [hd] <;> decide

/-- C3: for every host, every connection state and every JetStream configuration,
`Health` returns and its details hold the key jetstream_status exactly when the
JetStream mock is configured; when it is not, the key reads as absent and
jetstream_enabled is false. -/
theorem Health_jetstream_status_iff_configured (server : String) (s : Status)
    (js : Option mockJetStream) :
    ∃ r, testNATSClient.Health ⟨⟨server⟩, some ⟨s⟩, js⟩ = .ok r ∧
      ((r.health.Details "jetstream_status").isSome ↔ js.isSome) ∧
      (js = none → r.health.Details "jetstream_status" = none ∧
        r.health.Details "jetstream_enabled" = some (.bool false)) := by
  refine ⟨_, Health_of_conn server s js, ?_, ?_⟩
  · rcases js with _ | ⟨_ | e⟩ <;>
      simp [testNATSClient.probeJetStream, mockJetStream.AccountInfo, Details.set, Details.empty]
  · rintro rfl
    simp [testNATSClient.probeJetStream, Details.set, Details.empty]

/-- C3 (at the client of the `NoJetStream` case): a CONNECTED connection with no
JetStream mock has no jetstream_status entry and jetstream_enabled false. -/
theorem Health_jetstream_status_iff_configured_witness :
    ∃ r, testNATSClient.Health ⟨⟨"nats://localhost:4222"⟩, some ⟨CONNECTED⟩, none⟩ = .ok r ∧
      r.health.Details "jetstream_status" = none ∧
      r.health.Details "jetstream_enabled" = some (.bool false) := by
  obtain ⟨r, hr, -, hnone⟩ :=
    Health_jetstream_status_iff_configured "nats://localhost:4222" CONNECTED none
  exact ⟨r, hr, hnone rfl⟩

/-- C4 (the code at the failing input): with the connection DISCONNECTED and a
JetStream mock configured, `Health` returns status DOWN, calls `AccountInfo` once
and stores jetstream_status, here the OK token. -/
theorem Health_disconnected_probes_jetstream :
    ∃ r, testNATSClient.Health ⟨⟨"nats://localhost:4222"⟩, some ⟨DISCONNECTED⟩, some ⟨none⟩⟩ = .ok r ∧
      r.health.Status = StatusDown ∧
      r.accountInfoCalls = 1 ∧
      r.health.Details "jetstream_status" = some (.str jetstreamStatusOK) ∧
      r.health.Details ≠ Details.ofList
        [("host", .str "nats://localhost:4222"), ("backend", .str natsBackend),
         ("connection_status", .str DISCONNECTED.String),
         ("jetstream_enabled", .bool true)] := by
  refine ⟨_, Health_of_conn _ _ _, by decide, by decide, by decide, ?_⟩
  intro hEq
  have hk := congrFun hEq "jetstream_status"
  revert hk
  decide

/-- C5 (the code at the failing input): with the connection mock nil, `Health`
passes the nil guard of line 55 and panics on the nil dereference of line 61; it
returns no snapshot, so none with status DOWN and a connection_status entry. -/
theorem Health_nil_conn_panics :
    testNATSClient.Health ⟨⟨"nats://localhost:4222"⟩, none, none⟩ = .error .nilDereference ∧
    ¬ ∃ r, testNATSClient.Health ⟨⟨"nats://localhost:4222"⟩, none, none⟩ = .ok r ∧
        r.health.Status = StatusDown ∧
        (r.health.Details "connection_status").isSome := by
  constructor
  · rfl
  · rintro ⟨r, hr, -⟩
    have hp : testNATSClient.Health ⟨⟨"nats://localhost:4222"⟩, none, none⟩
        = .error .nilDereference := rfl
    rw [hp] at hr
    cases hr

end nats

/-! ## Properties of `StreamManager` -/

namespace nats

/-- The server state after `DeleteStream` is the one the JetStream call left. -/
theorem DeleteStream_server {σ ε : Type} (E : GoErrors ε) (sm : StreamManager σ ε)
    (name : String) (w : World σ) :
    (sm.DeleteStream E name w).2.server = (sm.js.DeleteStream name w.server).2 := by
  unfold StreamManager.DeleteStream
  cases h : (sm.js.DeleteStream name w.server).1 with
  | none => simp [h]
  | some e => by_cases hm : E.Is e E.ErrStreamNotFound = true <;> simp [h, hm]

/-- `DeleteStream` returns nil when the JetStream call returns nil or an error
matching `ErrStreamNotFound`. -/
theorem DeleteStream_nil_of {σ ε : Type} (E : GoErrors ε) (sm : StreamManager σ ε)
    (name : String) (w : World σ)
    (h : (sm.js.DeleteStream name w.server).1 = none ∨
      ∃ e, (sm.js.DeleteStream name w.server).1 = some e ∧
        E.Is e E.ErrStreamNotFound = true) :
    (sm.DeleteStream E name w).1 = none := by
  unfold StreamManager.DeleteStream
  rcases h with h | ⟨e, h, hm⟩
  · simp [h]
  · simp [h, hm]

/-- C6: for every type of error values, every `errors.Is` on it, every JetStream,
state and stream name: when the JetStream delete succeeds or fails with an error
`e` for which `errors.Is(e, ErrStreamNotFound)` holds (the value itself, a
wrapped one, or any other the library makes match), `DeleteStream` returns nil;
and when the JetStream delete issued by a second call (on the state the first
one left) again succeeds or reports not found, the second `DeleteStream` returns
nil too. -/
theorem DeleteStream_not_found_is_success {σ ε : Type} (E : GoErrors ε)
    (sm : StreamManager σ ε) (name : String) (w : World σ)
    (h1 : (sm.js.DeleteStream name w.server).1 = none ∨
      ∃ e, (sm.js.DeleteStream name w.server).1 = some e ∧
        E.Is e E.ErrStreamNotFound = true) :
    (sm.DeleteStream E name w).1 = none ∧
    (((sm.js.DeleteStream name (sm.js.DeleteStream name w.server).2).1 = none ∨
        ∃ e, (sm.js.DeleteStream name (sm.js.DeleteStream name w.server).2).1 = some e ∧
          E.Is e E.ErrStreamNotFound = true) →
      (sm.DeleteStream E name (sm.DeleteStream E name w).2).1 = none) := by
  refine ⟨DeleteStream_nil_of E sm name w h1, fun h2 => ?_⟩
  apply DeleteStream_nil_of
  rw [DeleteStream_server]
  exact h2

/-- C6 (witness): on the in-memory JetStream holding the stream "orders", the
first delete succeeds, the second meets the API error of a missing stream, and
both `DeleteStream` calls return nil; a JetStream failing with the wrapped
`ErrStreamNotFound` also makes `DeleteStream` return nil. -/
theorem DeleteStream_not_found_is_success_witness :
    (memJetStream.DeleteStream "orders" ["orders"]).1 = none ∧
    (memJetStream.DeleteStream "orders" (memJetStream.DeleteStream "orders" ["orders"]).2).1
      = some .apiStreamNotFound ∧
    ((NewStreamManager memJetStream).DeleteStream sampleErrors "orders" ⟨["orders"], []⟩).1
      = none ∧
    ((NewStreamManager memJetStream).DeleteStream sampleErrors "orders"
      ((NewStreamManager memJetStream).DeleteStream sampleErrors "orders"
        ⟨["orders"], []⟩).2).1 = none ∧
    ((NewStreamManager (failingJetStream SampleError.wrappedStreamNotFound)).DeleteStream
      sampleErrors "orders" ⟨(), []⟩).1 = none :=
  ⟨by decide, by decide,
    (DeleteStream_not_found_is_success sampleErrors (NewStreamManager memJetStream) "orders"
      ⟨["orders"], []⟩ (Or.inl (by decide))).1,
    (DeleteStream_not_found_is_success sampleErrors (NewStreamManager memJetStream) "orders"
      ⟨["orders"], []⟩ (Or.inl (by decide))).2
      (Or.inr ⟨.apiStreamNotFound, by decide, by decide⟩),
    (DeleteStream_not_found_is_success sampleErrors
      (NewStreamManager (failingJetStream SampleError.wrappedStreamNotFound)) "orders"
      ⟨(), []⟩ (Or.inr ⟨.wrappedStreamNotFound, by decide, by decide⟩)).1⟩

/-- C7: for every type of error values, every `errors.Is` on it, every JetStream,
state and argument, `CreateStream`, `CreateOrUpdateStream` and `GetStream`
return exactly the error of the JetStream call (nil exactly when it is nil),
with a nil stream whenever that error is not nil and the stream of the call
otherwise; `GetStream` does so for an error matching `ErrStreamNotFound` as
well; `DeleteStream` returns exactly the error of the call when `errors.Is`
does not match it with `ErrStreamNotFound`, and returns nil exactly when the
call returned nil or a matching error. -/
theorem StreamManager_errors_propagate {σ ε : Type} (E : GoErrors ε) (sm : StreamManager σ ε)
    (w : World σ) (cfg : StreamConfig) (jsCfg : jetstream.StreamConfig) (name : String) :
    (sm.CreateStream E cfg w).1 = (sm.js.CreateStream ⟨cfg.Stream, cfg.Subjects⟩ w.server).1.2 ∧
    (sm.CreateOrUpdateStream E jsCfg w).1.2 = (sm.js.CreateOrUpdateStream jsCfg w.server).1.2 ∧
    ((sm.js.CreateOrUpdateStream jsCfg w.server).1.2 ≠ none →
      (sm.CreateOrUpdateStream E jsCfg w).1.1 = none) ∧
    ((sm.js.CreateOrUpdateStream jsCfg w.server).1.2 = none →
      (sm.CreateOrUpdateStream E jsCfg w).1.1 = (sm.js.CreateOrUpdateStream jsCfg w.server).1.1) ∧
    (sm.GetStream E name w).1.2 = (sm.js.Stream name w.server).1.2 ∧
    ((sm.js.Stream name w.server).1.2 ≠ none → (sm.GetStream E name w).1.1 = none) ∧
    ((sm.js.Stream name w.server).1.2 = none →
      (sm.GetStream E name w).1.1 = (sm.js.Stream name w.server).1.1) ∧
    (∀ e, (sm.js.Stream name w.server).1.2 = some e →
      E.Is e E.ErrStreamNotFound = true → (sm.GetStream E name w).1 = (none, some e)) ∧
    (∀ e, (sm.js.DeleteStream name w.server).1 = some e →
      E.Is e E.ErrStreamNotFound = false → (sm.DeleteStream E name w).1 = some e) ∧
    ((sm.DeleteStream E name w).1 = none ↔
      ((sm.js.DeleteStream name w.server).1 = none ∨
        ∃ e, (sm.js.DeleteStream name w.server).1 = some e ∧
          E.Is e E.ErrStreamNotFound = true)) := by
  refine ⟨?_, ?_, ?_, ?_, ?_, ?_, ?_, ?_, ?_, ?_⟩
  · unfold StreamManager.CreateStream
    cases h : (sm.js.CreateStream ⟨cfg.Stream, cfg.Subjects⟩ w.server).1.2 <;> simp [h]
  · unfold StreamManager.CreateOrUpdateStream
    cases h : (sm.js.CreateOrUpdateStream jsCfg w.server).1.2 <;> simp [h]
  · unfold StreamManager.CreateOrUpdateStream
    cases h : (sm.js.CreateOrUpdateStream jsCfg w.server).1.2 <;> simp [h]
  · unfold StreamManager.CreateOrUpdateStream
    cases h : (sm.js.CreateOrUpdateStream jsCfg w.server).1.2 <;> simp [h]
  · unfold StreamManager.GetStream
    cases h : (sm.js.Stream name w.server).1.2 with
    | none => simp [h]
    | some e => by_cases hm : E.Is e E.ErrStreamNotFound = true <;> simp [h, hm]
  · unfold StreamManager.GetStream
    cases h : (sm.js.Stream name w.server).1.2 with
    | none => simp [h]
    | some e => by_cases hm : E.Is e E.ErrStreamNotFound = true <;> simp [h, hm]
  · unfold StreamManager.GetStream
    cases h : (sm.js.Stream name w.server).1.2 with
    | none => simp [h]
    | some e => by_cases hm : E.Is e E.ErrStreamNotFound = true <;> simp [h, hm]
  · intro e h hm
    unfold StreamManager.GetStream
    simp [h, hm]
  · intro e h hm
    unfold StreamManager.DeleteStream
    simp [h, hm]
  · unfold StreamManager.DeleteStream
    cases h : (sm.js.DeleteStream name w.server).1 with
    | none => simp [h]
    | some e => by_cases hm : E.Is e E.ErrStreamNotFound = true <;> simp [h, hm]

/-- C7 (witness): a JetStream failing every call with `ErrConnectionClosed` makes
each of the four methods return that error and no stream; one failing with the
API error "stream name in use" makes `DeleteStream` return that error; on the
in-memory JetStream with no streams, `GetStream` returns `ErrStreamNotFound`
itself. -/
theorem StreamManager_errors_propagate_witness :
    ((NewStreamManager (failingJetStream SampleError.connectionClosed)).CreateStream
      sampleErrors ⟨"orders", ["orders.*"]⟩ ⟨(), []⟩).1 = some .connectionClosed ∧
    ((NewStreamManager (failingJetStream SampleError.connectionClosed)).CreateOrUpdateStream
      sampleErrors ⟨"orders", ["orders.*"]⟩ ⟨(), []⟩).1 = (none, some .connectionClosed) ∧
    ((NewStreamManager (failingJetStream SampleError.connectionClosed)).GetStream
      sampleErrors "orders" ⟨(), []⟩).1 = (none, some .connectionClosed) ∧
    ((NewStreamManager (failingJetStream SampleError.connectionClosed)).DeleteStream
      sampleErrors "orders" ⟨(), []⟩).1 = some .connectionClosed ∧
    ((NewStreamManager (failingJetStream SampleError.apiStreamNameInUse)).DeleteStream
      sampleErrors "orders" ⟨(), []⟩).1 = some .apiStreamNameInUse ∧
    ((NewStreamManager memJetStream).GetStream sampleErrors "orders" ⟨[], []⟩).1
      = (none, some .streamNotFound) := by
  have t := StreamManager_errors_propagate sampleErrors
    (NewStreamManager (failingJetStream SampleError.connectionClosed))
    ⟨(), []⟩ ⟨"orders", ["orders.*"]⟩ ⟨"orders", ["orders.*"]⟩ "orders"
  have v := StreamManager_errors_propagate sampleErrors
    (NewStreamManager (failingJetStream SampleError.apiStreamNameInUse))
    ⟨(), []⟩ ⟨"orders", ["orders.*"]⟩ ⟨"orders", ["orders.*"]⟩ "orders"
  have u := StreamManager_errors_propagate sampleErrors (NewStreamManager memJetStream)
    ⟨[], []⟩ ⟨"orders", ["orders.*"]⟩ ⟨"orders", ["orders.*"]⟩ "orders"
  refine ⟨t.1, ?_, ?_, t.2.2.2.2.2.2.2.2.1 .connectionClosed rfl (by decide),
    v.2.2.2.2.2.2.2.2.1 .apiStreamNameInUse rfl (by decide),
    u.2.2.2.2.2.2.2.1 .streamNotFound (by decide) (by decide)⟩
  · exact Prod.ext (t.2.2.1 (by decide)) t.2.1
  · exact Prod.ext (t.2.2.2.2.2.1 (by decide)) t.2.2.2.2.1

end nats

/-! ## Properties of `strconv.Atoi` -/

namespace strconv

/-- The value of `maxUint64`. -/
theorem maxUint64_eq : maxUint64 = 18446744073709551615 := by norm_num [maxUint64]

/-- Reading more digits never lowers the value. -/
theorem le_digitsValue (cs : List Char) (n : Nat) : n ≤ digitsValue cs n := by
  induction cs generalizing n with
  | nil => simp [digitsValue]
  | cons c cs ih =>
    have := ih (n * 10 + (c.toNat - 48))
    simp only [digitsValue, List.foldl_cons] at this ⊢
    omega

/-- The digit loop either reads only digits without passing `maxUint64` and
returns their value, or fails with a syntax or a range error. -/
theorem parseUintLoop_cases (cs : List Char) (n : Nat) (hn : n ≤ maxUint64) :
    (cs.all Char.isDigit = true ∧ digitsValue cs n ≤ maxUint64 ∧
      parseUintLoop cs n = (digitsValue cs n, none)) ∨
    (¬ (cs.all Char.isDigit = true ∧ digitsValue cs n ≤ maxUint64) ∧
      (parseUintLoop cs n = (0, some .ErrSyntax) ∨
        parseUintLoop cs n = (maxUint64, some .ErrRange))) := by
  induction cs generalizing n with
  | nil => left; simp [digitsValue, parseUintLoop, hn]
  | cons c cs ih =>
    have hmono := le_digitsValue cs (n * 10 + (c.toNat - 48))
    have hdv : digitsValue (c :: cs) n = digitsValue cs (n * 10 + (c.toNat - 48)) := by
      simp [digitsValue]
    rw [hdv]
    simp only [List.all_cons, Bool.and_eq_true, parseUintLoop]
    by_cases hc : c.isDigit = true
    · simp only [hc, if_true, true_and]
      simp only [maxUint64_eq] at hn ih ⊢
      by_cases h1 : n ≥ 18446744073709551615 / 10 + 1
      · right
        simp only [h1, if_true]
        refine ⟨?_, by simp⟩
        rintro ⟨-, h⟩
        omega
      · simp only [h1, if_false]
        by_cases h2 : n * 10 + (c.toNat - 48) > 18446744073709551615
        · right
          simp only [h2, if_true]
          refine ⟨?_, by simp⟩
          rintro ⟨-, h⟩
          omega
        · simp only [h2, if_false]
          exact ih (n * 10 + (c.toNat - 48)) (by omega)
    · right
      simp [hc]

/-- The function `ParseUint` either reads a non-empty run of digits within
`maxUint64` and returns its value, or fails with a syntax or a range error. -/
theorem ParseUint_cases (body : List Char) :
    (body ≠ [] ∧ body.all Char.isDigit = true ∧ digitsValue body 0 ≤ maxUint64 ∧
      ParseUint body = (digitsValue body 0, none)) ∨
    (¬ (body ≠ [] ∧ body.all Char.isDigit = true ∧ digitsValue body 0 ≤ maxUint64) ∧
      (ParseUint body = (0, some .ErrSyntax) ∨ ParseUint body = (maxUint64, some .ErrRange))) := by
  cases body with
  | nil => right; simp [ParseUint]
  | cons b bs =>
    have h := parseUintLoop_cases (b :: bs) 0 (Nat.zero_le _)
    simpa [ParseUint] using h

/-- The function `Atoi` returns a nil error exactly on the decimal integers of
`decimalInt?`, with the value they denote. -/
theorem Atoi_decimalInt (s : String) :
    (∀ v, decimalInt? s = some v → Atoi s = (v, none)) ∧
    (decimalInt? s = none → (Atoi s).2 ≠ none) := by
  unfold Atoi ParseInt decimalInt?
  cases s.toList with
  | nil => simp
  | cons c cs =>
    simp only
    generalize (if c = '+' ∨ c = '-' then cs else c :: cs) = body
    rcases ParseUint_cases body with ⟨h1, h2, h3, h4⟩ | ⟨h1, h4 | h4⟩
    · rw [h4]
      generalize digitsValue body 0 = V at *
      rw [maxUint64_eq] at h3
      by_cases hneg : c = '-'
      · by_cases hr : V ≤ 9223372036854775808
        · have hr2 : ¬ (9223372036854775808 < V) := by omega
          simp [hneg, h1, h2, hr, hr2]
        · have hr2 : 9223372036854775808 < V := by omega
          simp [hneg, h1, h2, hr, hr2]
      · by_cases hr : V < 9223372036854775808
        · have hr2 : ¬ (9223372036854775808 ≤ V) := by omega
          simp [hneg, h1, h2, hr, hr2]
        · have hr2 : 9223372036854775808 ≤ V := by omega
          simp [hneg, h1, h2, hr, hr2]
    · rw [h4]
      by_cases hwf : body ≠ [] ∧ body.all Char.isDigit = true
      · have hV : ¬ digitsValue body 0 ≤ maxUint64 := fun h => h1 ⟨hwf.1, hwf.2, h⟩
        generalize digitsValue body 0 = V at *
        rw [maxUint64_eq] at hV
        have hr : ¬ V ≤ 9223372036854775808 := by omega
        have hr2 : ¬ V < 9223372036854775808 := by omega
        simp [hwf, hr, hr2]
      · simp only [if_neg hwf]
        simp
    · rw [h4]
      by_cases hwf : body ≠ [] ∧ body.all Char.isDigit = true
      · have hV : ¬ digitsValue body 0 ≤ maxUint64 := fun h => h1 ⟨hwf.1, hwf.2, h⟩
        generalize digitsValue body 0 = V at *
        rw [maxUint64_eq] at hV ⊢
        have hr : ¬ V ≤ 9223372036854775808 := by omega
        have hr2 : ¬ V < 9223372036854775808 := by omega
        by_cases hneg : c = '-' <;> simp [hwf, hr, hr2, hneg]
      · rw [maxUint64_eq]
        simp only [if_neg hwf]
        by_cases hneg : c = '-' <;> simp [hneg]

end strconv

/-! ## Properties of `getRedisConfig` and `NewClient` -/

namespace redis

/-- C10: for every configuration, `getRedisConfig` sets `Port` to the number
REDIS_PORT denotes when it is a decimal integer and to 6379 otherwise (the empty
string of a missing key included), sets `DB` to the number REDIS_DB denotes when
it is a decimal integer and to 0 otherwise, copies host, user and password, and
fills `Options` from the `Config`: `Addr` is `HostName`, a colon and the decimal
`Port`; `Username`, `Password` and `DB` are those of the `Config`. -/
theorem getRedisConfig_port_db_options (c : config.Config) :
    (∀ n, strconv.decimalInt? (c.Get "REDIS_PORT") = some n → (getRedisConfig c).Port = n) ∧
    (strconv.decimalInt? (c.Get "REDIS_PORT") = none → (getRedisConfig c).Port = 6379) ∧
    (c.Get "REDIS_PORT" = "" → (getRedisConfig c).Port = 6379) ∧
    (∀ n, strconv.decimalInt? (c.Get "REDIS_DB") = some n → (getRedisConfig c).DB = n) ∧
    (strconv.decimalInt? (c.Get "REDIS_DB") = none → (getRedisConfig c).DB = 0) ∧
    (c.Get "REDIS_DB" = "" → (getRedisConfig c).DB = 0) ∧
    (getRedisConfig c).HostName = c.Get "REDIS_HOST" ∧
    (getRedisConfig c).Username = c.Get "REDIS_USER" ∧
    (getRedisConfig c).Password = c.Get "REDIS_PASSWORD" ∧
    (getRedisConfig c).Options.Addr =
      (getRedisConfig c).HostName ++ ":" ++ fmt.d (getRedisConfig c).Port ∧
    (getRedisConfig c).Options.Username = (getRedisConfig c).Username ∧
    (getRedisConfig c).Options.Password = (getRedisConfig c).Password ∧
    (getRedisConfig c).Options.DB = (getRedisConfig c).DB := by
  have hp := strconv.Atoi_decimalInt (c.Get "REDIS_PORT")
  have hd := strconv.Atoi_decimalInt (c.Get "REDIS_DB")
  have hempty : strconv.decimalInt? "" = none := by decide
  refine ⟨?_, ?_, ?_, ?_, ?_, ?_, rfl, rfl, rfl, ?_, ?_, ?_, rfl⟩
  · intro n hn
    simp [getRedisConfig, hp.1 n hn]
  · intro hn
    simp [getRedisConfig, hp.2 hn, defaultRedisPort]
  · intro he
    have hn : strconv.decimalInt? (c.Get "REDIS_PORT") = none := by rw [he]; exact hempty
    simp [getRedisConfig, hp.2 hn, defaultRedisPort]
  · intro n hn
    simp [getRedisConfig, hd.1 n hn]
  · intro hn
    simp [getRedisConfig, hd.2 hn]
  · intro he
    have hn : strconv.decimalInt? (c.Get "REDIS_DB") = none := by rw [he]; exact hempty
    simp [getRedisConfig, hd.2 hn]
  · simp [getRedisConfig]
  · simp [getRedisConfig]
  · simp [getRedisConfig]

/-- C10 (witness): with REDIS_HOST "localhost", REDIS_PORT "6380" and REDIS_DB
"abc", the port is 6380, the database is 0 and the address is
"localhost:6380"; with REDIS_PORT missing the port is 6379. -/
theorem getRedisConfig_port_db_options_witness :
    (getRedisConfig (mapConfig
      [("REDIS_HOST", "localhost"), ("REDIS_PORT", "6380"), ("REDIS_DB", "abc")])).Port = 6380 ∧
    (getRedisConfig (mapConfig
      [("REDIS_HOST", "localhost"), ("REDIS_PORT", "6380"), ("REDIS_DB", "abc")])).DB = 0 ∧
    (getRedisConfig (mapConfig
      [("REDIS_HOST", "localhost"), ("REDIS_PORT", "6380"), ("REDIS_DB", "abc")])).Options.Addr
        = "localhost:6380" ∧
    (getRedisConfig (mapConfig [("REDIS_HOST", "localhost")])).Port = 6379 :=
  ⟨(getRedisConfig_port_db_options _).1 6380 (by decide),
   (getRedisConfig_port_db_options _).2.2.2.2.1 (by decide),
   by decide,
   (getRedisConfig_port_db_options _).2.2.1 (by decide)⟩

/-- C9: for every configuration and every answer of the outside world, when
REDIS_HOST is empty `NewClient` returns nil and does nothing at all (no client is
made, no ping is sent, nothing is logged); when REDIS_HOST is not empty it
returns a non-nil `*Redis` holding the client made from the options of
`getRedisConfig`, having made that client and sent one ping. -/
theorem NewClient_nil_iff_host_empty (c : config.Config) (env : Env) :
    (c.Get "REDIS_HOST" = "" → NewClient c env = (none, [])) ∧
    (c.Get "REDIS_HOST" ≠ "" →
      (NewClient c env).1 =
        some { Client := { options := (getRedisConfig c).Options }, config := getRedisConfig c } ∧
      Event.newClient (getRedisConfig c).Options ∈ (NewClient c env).2 ∧
      Event.ping ∈ (NewClient c env).2) := by
  have hh : (getRedisConfig c).HostName = c.Get "REDIS_HOST" := rfl
  constructor
  · intro h
    simp [NewClient, hh, h]
  · intro h
    have h2 : ¬ (getRedisConfig c).HostName = "" := by rw [hh]; exact h
    simp only [NewClient, if_neg h2]
    refine ⟨trivial, ?_, ?_⟩ <;> rcases env with ⟨_ | pe, _ | te⟩ <;> simp

/-- C9 (witness): with only REDIS_PORT set `NewClient` returns nil and an empty
trace; with REDIS_HOST "localhost" it returns a client even when the ping fails. -/
theorem NewClient_nil_iff_host_empty_witness :
    NewClient (mapConfig [("REDIS_PORT", "6380")]) ⟨none, none⟩ = (none, []) ∧
    (NewClient (mapConfig [("REDIS_HOST", "localhost")])
      ⟨some nats.ErrConnectionClosed, none⟩).1.isSome = true :=
  ⟨(NewClient_nil_iff_host_empty (mapConfig [("REDIS_PORT", "6380")]) ⟨none, none⟩).1 (by decide),
   by rw [((NewClient_nil_iff_host_empty (mapConfig [("REDIS_HOST", "localhost")])
      ⟨some nats.ErrConnectionClosed, none⟩).2 (by decide)).1]; rfl⟩

/-- C8 (the code at the failing input): with REDIS_HOST "localhost" and a ping
that fails, `NewClient` still returns a non-nil `*Redis` holding the client; its
only trace of the failure is one line logged at error level, and it has no
second result. With a ping that succeeds it returns the same value. -/
theorem NewClient_ping_error_returns_client :
    NewClient (mapConfig [("REDIS_HOST", "localhost")])
        ⟨some (.sentinel 2 "dial tcp 127.0.0.1:6379: connect: connection refused"), none⟩ =
      (some { Client := { options := { Addr := "localhost:6379" } },
              config := { HostName := "localhost", Username := "", Password := "", Port := 6379,
                          DB := 0, Options := { Addr := "localhost:6379" } } },
       [.log ⟨.debug, "connecting to redis at '%s:%d' on database %d", ["localhost", "6379", "0"]⟩,
        .newClient { Addr := "localhost:6379" }, .addHook, .ping,
        .log ⟨.error, "could not connect to redis at '%s:%d' , error: %s",
          ["localhost", "6379", "dial tcp 127.0.0.1:6379: connect: connection refused"]⟩]) ∧
    (NewClient (mapConfig [("REDIS_HOST", "localhost")])
        ⟨some (.sentinel 2 "dial tcp 127.0.0.1:6379: connect: connection refused"), none⟩).1 =
      (NewClient (mapConfig [("REDIS_HOST", "localhost")]) ⟨none, none⟩).1 := by
  constructor <;> decide

end redis
